import Mathlib

/-!
# Verification of the dental-scheduler repository

This file embeds, in Lean 4, the parts of the `dental-scheduler` repository
that the verified claims are about:

* the appointment availability / conflict-detection subsystem (the Slot
  Calculator and the Conflict Checker of the design note) — this subsystem is
  described in the design note but is not implemented in the repository's
  source tree (the sprint plan only schedules its implementation), so those
  definitions are modelled from the spec;
* the implemented authentication module (`AuthService` in
  `modules/auth/services/auth.service.ts`, `AuthController` in
  `modules/auth/controllers/auth.controller.ts`, `BaseController.handleRequest`
  in `utils/baseController.ts`), translated directly from the TypeScript
  source;
* the Express middleware stack mounted in `app.ts`.

Times are minutes (or milliseconds where the source uses `Date.now()`),
represented as `Nat`.
-/

/-! ## Scheduling subsystem: data model -/

/-- Modelled from the spec: the shared time-interval representation of the
availability/conflict subsystem (spec §2, §3).  The subsystem itself is absent
from the repository's source; only the design note describes it.  `start` and
`stop` are minutes; an interval denotes the closed-open range `[start, stop)`. -/
structure TimeInterval where
  start : Nat
  stop : Nat
deriving Repr, DecidableEq

/-- Modelled from the spec: appointment status (spec §3,
`Scheduled | Completed | Cancelled`). -/
inductive ApptStatus where
  | Scheduled
  | Completed
  | Cancelled
deriving Repr, DecidableEq

/-- Modelled from the spec: the Appointment record (spec §3): dentistId,
patientId, startTime, endTime, status.  The appointment model file
(`appointment.model.ts`) is only planned in the sprint plan, not present. -/
structure Appointment where
  dentistId : Nat
  patientId : Nat
  startTime : Nat
  endTime : Nat
  status : ApptStatus
deriving Repr, DecidableEq

/-- Modelled from the spec: whether an appointment occupies the calendar
(spec §3: "Cancelled appointments do not occupy the calendar"). -/
def Appointment.isActive (a : Appointment) : Bool :=
  a.status ≠ ApptStatus.Cancelled

/-! ## Conflict Checker (spec §4.2, modelled from the spec) -/

/-- Modelled from the spec: the overlap rule of the Conflict Checker
(spec §4.2): two intervals `[s1,e1)` and `[s2,e2)` conflict iff
`s1 < e2 AND s2 < e1`.  No implementation exists under the source tree. -/
def intervalsConflict (s1 e1 s2 e2 : Nat) : Bool :=
  decide (s1 < e2) && decide (s2 < e1)

/-- Modelled from the spec: `checkConflict(dentistId, startTime, endTime) ->
Appointment | null` (spec §6), scanning the given dentist's existing active
appointments for a temporal overlap with the proposed `[s, e)` window
(spec §4.2).  No implementation exists under the source tree. -/
def checkConflict (dentistId s e : Nat) (store : List Appointment) :
    Option Appointment :=
  store.find? fun a =>
    decide (a.dentistId = dentistId) && a.isActive &&
      intervalsConflict s e a.startTime a.endTime

/-- Modelled from the spec: the structured booking error (spec §4.2
"rejected with a structured error identifying the conflicting time range",
spec §7 "slot no longer available"). -/
structure BookingError where
  message : String
  conflictStart : Nat
  conflictEnd : Nat
deriving Repr, DecidableEq

/-- Modelled from the spec: the booking operation of the booking endpoint
(spec §4.2, §6): it runs `checkConflict` as the final authoritative check and
either rejects the request — leaving the appointment store unchanged — or
inserts the new `Scheduled` appointment.  The appointment service is only
planned in the sprint plan, not present in the source tree.  The returned
store is the store after the operation. -/
def bookAppointment (dentistId patientId s e : Nat)
    (store : List Appointment) :
    Except BookingError Appointment × List Appointment :=
  match checkConflict dentistId s e store with
  | some c =>
      (Except.error ⟨"slot no longer available", c.startTime, c.endTime⟩, store)
  | none =>
      let appt : Appointment := ⟨dentistId, patientId, s, e, ApptStatus.Scheduled⟩
      (Except.ok appt, store ++ [appt])

/-! ## Slot Calculator (spec §4.1, modelled from the spec) -/

/-- Modelled from the spec: subtracting one appointment interval `a` (treated
as the closed-open range `[a.start, a.stop)`) from one gap `g`, keeping the
non-empty remaining pieces in order (spec §4.1 "subtract the union of existing
appointment intervals ... producing gaps").  No implementation exists under
the source tree. -/
def subGap (a : TimeInterval) (g : TimeInterval) : List TimeInterval :=
  if a.stop ≤ g.start ∨ g.stop ≤ a.start then [g]
  else
    (if g.start < a.start then [⟨g.start, a.start⟩] else []) ++
    (if a.stop < g.stop then [⟨a.stop, g.stop⟩] else [])

/-- Modelled from the spec: subtract every appointment interval, one after the
other, from a list of gaps (spec §4.1).  No implementation exists under the
source tree. -/
def subtractAll : List TimeInterval → List TimeInterval → List TimeInterval
  | [], gaps => gaps
  | a :: rest, gaps => subtractAll rest (gaps.flatMap (subGap a))

/-- Modelled from the spec: the gaps of one working-hours interval after
subtracting all appointment intervals (spec §4.1). -/
def subtractAppts (appts : List TimeInterval) (w : TimeInterval) :
    List TimeInterval :=
  subtractAll appts [w]

/-- Modelled from the spec: the start times of all `duration`-sized slots that
fit within the gap `[gStart, gStop)`, stepping by a fixed `granularity` from
the gap's start (spec §4.1 "emit all duration-sized slots that fit within each
gap, stepping by a fixed granularity"; a gap smaller than `duration` yields no
slot). -/
def slotStarts (gStart gStop duration granularity : Nat) : List Nat :=
  if gStart + duration ≤ gStop then
    (List.range ((gStop - gStart - duration) / granularity + 1)).map
      fun k => gStart + k * granularity
  else []

/-- Modelled from the spec: the candidate slots inside one gap, each exactly
`duration` minutes (spec §4.1). -/
def slotsInGap (g : TimeInterval) (duration granularity : Nat) :
    List TimeInterval :=
  (slotStarts g.start g.stop duration granularity).map fun t => ⟨t, t + duration⟩

/-- Modelled from the spec: the Slot Calculator over plain intervals
(spec §4.1): for each working-hours interval, subtract the appointment
intervals producing gaps, and emit the `duration`-sized slots of every gap in
chronological order. -/
def computeSlots (working appts : List TimeInterval)
    (duration granularity : Nat) : List TimeInterval :=
  working.flatMap fun w =>
    (subtractAppts appts w).flatMap fun g => slotsInGap g duration granularity

/-- Modelled from the spec: the intervals occupied by the active
(non-cancelled) appointments (spec §3, §4.1). -/
def activeIntervals (appts : List Appointment) : List TimeInterval :=
  (appts.filter Appointment.isActive).map fun a => ⟨a.startTime, a.endTime⟩

/-- Modelled from the spec: `computeAvailability` (spec §6): list the free
`duration`-sized slots of the given working hours, avoiding the active
appointments. -/
def computeAvailability (working : List TimeInterval)
    (appts : List Appointment) (duration granularity : Nat) :
    List TimeInterval :=
  computeSlots working (activeIntervals appts) duration granularity

/-! ### Claims about the Conflict Checker -/

/-- The overlap rule is symmetric in the two intervals. -/
theorem intervalsConflict_comm (s1 e1 s2 e2 : Nat) :
    intervalsConflict s1 e1 s2 e2 = intervalsConflict s2 e2 s1 e1 := by
  simp [intervalsConflict, Bool.and_comm]

/-- Claim C1: the conflict checker decides overlap by the half-open interval
rule: `intervalsConflict s1 e1 s2 e2` holds iff `s1 < e2 ∧ s2 < e1`, and
`checkConflict` reports a conflict exactly when some active appointment of the
dentist overlaps in that sense; in particular 10:15–10:45 (615–645) against
10:00–10:30 (600–630) conflicts, while the abutting 10:30–11:00 (630–660)
does not. -/
theorem C1_conflict_half_open_rule :
    (∀ s1 e1 s2 e2 : Nat,
      intervalsConflict s1 e1 s2 e2 = true ↔ (s1 < e2 ∧ s2 < e1))
    ∧ (∀ (d s e : Nat) (store : List Appointment),
        (checkConflict d s e store).isSome ↔
          ∃ a ∈ store, a.dentistId = d ∧ a.isActive = true ∧
            s < a.endTime ∧ a.startTime < e)
    ∧ intervalsConflict 615 645 600 630 = true
    ∧ intervalsConflict 630 660 600 630 = false := by
  refine ⟨?_, ?_, by decide, by decide⟩
  · intro s1 e1 s2 e2
    simp [intervalsConflict]
  · intro d s e store
    rw [checkConflict, List.find?_isSome]
    simp only [intervalsConflict, Bool.and_eq_true, decide_eq_true_eq]
    constructor
    · rintro ⟨a, hmem, ⟨hd, hact⟩, h1, h2⟩
      exact ⟨a, hmem, hd, hact, h1, h2⟩
    · rintro ⟨a, hmem, hd, hact, h1, h2⟩
      exact ⟨a, hmem, ⟨hd, hact⟩, h1, h2⟩

/-- Claim C5: conflict detection is symmetric: the interval rule is symmetric in
the two intervals, and for two active appointments of the same dentist,
checking A against B finds a conflict exactly when checking B against A
does. -/
theorem C5_conflict_symmetric :
    (∀ s1 e1 s2 e2 : Nat,
      intervalsConflict s1 e1 s2 e2 = intervalsConflict s2 e2 s1 e1)
    ∧ (∀ a b : Appointment, a.dentistId = b.dentistId →
        a.isActive = true → b.isActive = true →
        ((checkConflict a.dentistId a.startTime a.endTime [b]).isSome ↔
         (checkConflict b.dentistId b.startTime b.endTime [a]).isSome)) := by
  constructor
  · exact intervalsConflict_comm
  · intro a b hd ha hb
    simp only [checkConflict, List.find?, hd, ha, hb, decide_True, Bool.true_and]
    rw [intervalsConflict_comm]
    cases intervalsConflict b.startTime b.endTime a.startTime a.endTime <;> simp

/-- Witness for claim C5 at a concrete pair of overlapping appointments. -/
theorem C5_conflict_symmetric_witness :
    ((checkConflict 1 615 645 [⟨1, 2, 600, 630, ApptStatus.Scheduled⟩]).isSome ↔
     (checkConflict 1 600 630 [⟨1, 3, 615, 645, ApptStatus.Scheduled⟩]).isSome) := by
  have h := C5_conflict_symmetric.2
    ⟨1, 3, 615, 645, ApptStatus.Scheduled⟩
    ⟨1, 2, 600, 630, ApptStatus.Scheduled⟩
    rfl rfl rfl
  simpa using h

/-- Claim C3: when the final conflict check finds a conflicting appointment, the
booking operation fails with a structured error identifying the conflicting
time range, and the appointment store is returned unchanged. -/
theorem C3_booking_conflict_rejected (dentistId patientId s e : Nat)
    (store : List Appointment) (c : Appointment)
    (hc : checkConflict dentistId s e store = some c) :
    bookAppointment dentistId patientId s e store =
      (Except.error ⟨"slot no longer available", c.startTime, c.endTime⟩,
       store) := by
  simp [bookAppointment, hc]

/-- Witness for claim C3: booking 10:15–10:45 against an existing 10:00–10:30
appointment is rejected with the conflicting range and the store is kept. -/
theorem C3_booking_conflict_rejected_witness :
    bookAppointment 1 7 615 645 [⟨1, 2, 600, 630, ApptStatus.Scheduled⟩] =
      (Except.error ⟨"slot no longer available", 600, 630⟩,
       [⟨1, 2, 600, 630, ApptStatus.Scheduled⟩]) :=
  C3_booking_conflict_rejected 1 7 615 645
    [⟨1, 2, 600, 630, ApptStatus.Scheduled⟩]
    ⟨1, 2, 600, 630, ApptStatus.Scheduled⟩ (by decide)

/-- Claim C4: for working hours 09:00–12:00 (minutes 540–720), one existing
active appointment 10:00–10:30 (600–630), duration 30 min and granularity
30 min, the Slot Calculator returns exactly the five slots starting 09:00,
09:30, 10:30, 11:00, 11:30 — and no slot starting at 10:00 (600). -/
theorem C4_example_slots :
    computeAvailability [⟨540, 720⟩] [⟨1, 2, 600, 630, ApptStatus.Scheduled⟩]
        30 30 =
      [⟨540, 570⟩, ⟨570, 600⟩, ⟨630, 660⟩, ⟨660, 690⟩, ⟨690, 720⟩]
    ∧ ∀ s ∈ computeAvailability [⟨540, 720⟩]
        [⟨1, 2, 600, 630, ApptStatus.Scheduled⟩] 30 30, s.start ≠ 600 := by
  decide

/-! ### Slot Calculator lemmas -/

/-- Half-open disjointness of two time intervals. -/
def TimeInterval.disj (x y : TimeInterval) : Prop :=
  ¬(x.start < y.stop ∧ y.start < x.stop)

/-- Every piece produced by `subGap` stays within the original gap. -/
theorem mem_subGap_bounds {a g g' : TimeInterval} (h : g' ∈ subGap a g) :
    g.start ≤ g'.start ∧ g'.stop ≤ g.stop := by
  unfold subGap at h
  split_ifs at h with h0 h1 h2 h3
  all_goals simp only [List.mem_append, List.mem_singleton, List.mem_cons,
    List.not_mem_nil, or_false, false_or] at h
  · subst h; omega
  · rcases h with rfl | rfl <;> simp <;> omega
  · subst h; simp; omega
  · subst h; simp; omega

/-- Every piece produced by `subGap` is disjoint from the subtracted
appointment interval. -/
theorem mem_subGap_disj {a g g' : TimeInterval} (h : g' ∈ subGap a g) :
    g'.disj a := by
  unfold subGap at h
  unfold TimeInterval.disj
  split_ifs at h with h0 h1 h2 h3
  all_goals simp only [List.mem_append, List.mem_singleton, List.mem_cons,
    List.not_mem_nil, or_false, false_or] at h
  · subst h; omega
  · rcases h with rfl | rfl <;> simp
  · subst h; simp
  · subst h; simp

/-- A sub-interval of an interval disjoint from `a` is disjoint from `a`. -/
theorem disj_of_sub {x y a : TimeInterval} (hs : y.start ≤ x.start)
    (he : x.stop ≤ y.stop) (h : y.disj a) : x.disj a := by
  unfold TimeInterval.disj at *
  omega

/-- Every gap surviving `subtractAll` lies inside one of the starting gaps and
is disjoint from every subtracted appointment interval. -/
theorem mem_subtractAll :
    ∀ (appts : List TimeInterval) {gaps : List TimeInterval}
      {g' : TimeInterval}, g' ∈ subtractAll appts gaps →
      ∃ g ∈ gaps, (g.start ≤ g'.start ∧ g'.stop ≤ g.stop) ∧
        ∀ a ∈ appts, g'.disj a
  | [], _, g', h => by
      exact ⟨g', by simpa [subtractAll] using h, ⟨le_refl _, le_refl _⟩,
        by simp⟩
  | a :: rest, gaps, g', h => by
      rw [subtractAll] at h
      obtain ⟨g1, hg1, hb, hrest⟩ := mem_subtractAll rest h
      obtain ⟨g, hg, hsub⟩ := List.mem_flatMap.mp hg1
      have hb2 := mem_subGap_bounds hsub
      have hd := mem_subGap_disj hsub
      refine ⟨g, hg, ⟨le_trans hb2.1 hb.1, le_trans hb.2 hb2.2⟩, ?_⟩
      intro x hx
      rcases List.mem_cons.mp hx with rfl | hx
      · exact disj_of_sub hb.1 hb.2 hd
      · exact hrest x hx

/-- Every slot start emitted for a gap fits the gap. -/
theorem mem_slotStarts {gStart gStop duration granularity t : Nat}
    (h : t ∈ slotStarts gStart gStop duration granularity) :
    gStart ≤ t ∧ t + duration ≤ gStop := by
  unfold slotStarts at h
  split_ifs at h with h0
  · obtain ⟨k, hk, rfl⟩ := List.mem_map.mp h
    have hk' : k ≤ (gStop - gStart - duration) / granularity :=
      Nat.lt_succ_iff.mp (List.mem_range.mp hk)
    have hmul : k * granularity ≤ gStop - gStart - duration :=
      le_trans (Nat.mul_le_mul_right granularity hk')
        (Nat.div_mul_le_self _ _)
    omega
  · exact absurd h (List.not_mem_nil t)

/-- The slot starts of a gap are strictly increasing. -/
theorem slotStarts_pairwise {gStart gStop duration granularity : Nat}
    (hgran : 0 < granularity) :
    List.Pairwise (· < ·) (slotStarts gStart gStop duration granularity) := by
  unfold slotStarts
  split_ifs
  · refine List.Pairwise.map _ ?_ (List.pairwise_lt_range _)
    intro k1 k2 hk
    have : k1 * granularity < k2 * granularity :=
      (Nat.mul_lt_mul_right hgran).mpr hk
    omega
  · exact List.Pairwise.nil

/-- Each slot of a gap is `duration` long and contained in the gap. -/
theorem mem_slotsInGap {g : TimeInterval} {duration granularity : Nat}
    {s : TimeInterval} (h : s ∈ slotsInGap g duration granularity) :
    s.stop = s.start + duration ∧ g.start ≤ s.start ∧ s.stop ≤ g.stop := by
  unfold slotsInGap at h
  obtain ⟨t, ht, rfl⟩ := List.mem_map.mp h
  have hb := mem_slotStarts ht
  exact ⟨rfl, hb.1, hb.2⟩

/-- The slots of a single gap come in strictly increasing start order. -/
theorem slotsInGap_pairwise {g : TimeInterval} {duration granularity : Nat}
    (hgran : 0 < granularity) :
    List.Pairwise (fun s1 s2 => s1.start < s2.start)
      (slotsInGap g duration granularity) := by
  unfold slotsInGap
  exact List.Pairwise.map _ (fun t1 t2 ht => ht) (slotStarts_pairwise hgran)

/-- Subtracting a non-degenerate appointment interval from a gap yields
pieces in order. -/
theorem subGap_pairwise_self {a g : TimeInterval} (ha : a.start ≤ a.stop) :
    List.Pairwise (fun g1 g2 => g1.stop ≤ g2.start) (subGap a g) := by
  unfold subGap
  split_ifs <;> simp_all

/-- Subtracting non-degenerate appointment intervals keeps the gaps of a gap
list in chronological order. -/
theorem subtractAll_pairwise :
    ∀ (appts : List TimeInterval), (∀ a ∈ appts, a.start ≤ a.stop) →
      ∀ (gaps : List TimeInterval),
        List.Pairwise (fun g1 g2 => g1.stop ≤ g2.start) gaps →
        List.Pairwise (fun g1 g2 => g1.stop ≤ g2.start)
          (subtractAll appts gaps)
  | [], _, gaps, h => by simpa [subtractAll] using h
  | a :: rest, ha, gaps, h => by
      rw [subtractAll]
      refine subtractAll_pairwise rest
        (fun x hx => ha x (List.mem_cons_of_mem _ hx)) _ ?_
      rw [List.pairwise_flatMap]
      refine ⟨fun g _ => subGap_pairwise_self (ha a (List.mem_cons_self a rest)), ?_⟩
      refine h.imp ?_
      intro g1 g2 h12 x hx y hy
      have hx' := mem_subGap_bounds hx
      have hy' := mem_subGap_bounds hy
      omega

/-- Claim C2: for every working-hours configuration whose intervals are
non-overlapping and sorted (the spec §3 invariant), every set of appointments
satisfying the `startTime < endTime` invariant, and positive duration and
granularity, every slot returned by the Slot Calculator is exactly `duration`
minutes long, fully contained in a working-hours interval, and does not
overlap any existing active appointment; and the returned sequence is in
chronological order (slot starts strictly increase). -/
theorem C2_slot_calculator_sound (working : List TimeInterval)
    (appts : List Appointment) (duration granularity : Nat)
    (hdur : 0 < duration) (hgran : 0 < granularity)
    (hw : List.Pairwise (fun w1 w2 => w1.stop ≤ w2.start) working)
    (ha : ∀ a ∈ appts, a.startTime < a.endTime) :
    (∀ s ∈ computeAvailability working appts duration granularity,
      s.stop = s.start + duration
      ∧ (∃ w ∈ working, w.start ≤ s.start ∧ s.stop ≤ w.stop)
      ∧ ∀ a ∈ appts, a.isActive = true →
          ¬(s.start < a.endTime ∧ a.startTime < s.stop))
    ∧ List.Pairwise (fun s1 s2 => s1.start < s2.start)
        (computeAvailability working appts duration granularity) := by
  have hact : ∀ i ∈ activeIntervals appts, i.start ≤ i.stop := by
    intro i hi
    obtain ⟨a, hmem, rfl⟩ := List.mem_map.mp hi
    exact le_of_lt (ha a (List.mem_of_mem_filter hmem))
  constructor
  · intro s hs
    rw [computeAvailability, computeSlots, List.mem_flatMap] at hs
    obtain ⟨w, hw_mem, hs⟩ := hs
    rw [List.mem_flatMap] at hs
    obtain ⟨g, hg_mem, hs⟩ := hs
    have hslot := mem_slotsInGap hs
    obtain ⟨g0, hg0, hgb, hgdisj⟩ := mem_subtractAll _ hg_mem
    rw [List.mem_singleton] at hg0
    rw [hg0] at hgb
    refine ⟨hslot.1, ⟨w, hw_mem, le_trans hgb.1 hslot.2.1,
      le_trans hslot.2.2 hgb.2⟩, ?_⟩
    intro a hmem hactive
    have hia : (⟨a.startTime, a.endTime⟩ : TimeInterval) ∈
        activeIntervals appts := by
      rw [activeIntervals, List.mem_map]
      exact ⟨a, List.mem_filter.mpr ⟨hmem, hactive⟩, rfl⟩
    have := disj_of_sub hslot.2.1 hslot.2.2 (hgdisj _ hia)
    unfold TimeInterval.disj at this
    simpa using this
  · rw [computeAvailability, computeSlots, List.pairwise_flatMap]
    constructor
    · intro w _
      rw [List.pairwise_flatMap]
      refine ⟨fun g _ => slotsInGap_pairwise hgran, ?_⟩
      have hgap : List.Pairwise (fun g1 g2 => g1.stop ≤ g2.start)
          (subtractAppts (activeIntervals appts) w) :=
        subtractAll_pairwise _ hact _ (List.pairwise_singleton _ _)
      refine hgap.imp ?_
      intro g1 g2 h12 x hx y hy
      have hx' := mem_slotsInGap hx
      have hy' := mem_slotsInGap hy
      omega
    · refine hw.imp ?_
      intro w1 w2 h12 x hx y hy
      rw [List.mem_flatMap] at hx hy
      obtain ⟨g1, hg1, hx⟩ := hx
      obtain ⟨g2, hg2, hy⟩ := hy
      obtain ⟨g01, hg01, hb1, _⟩ := mem_subtractAll _ hg1
      obtain ⟨g02, hg02, hb2, _⟩ := mem_subtractAll _ hg2
      rw [List.mem_singleton] at hg01 hg02
      rw [hg01] at hb1
      rw [hg02] at hb2
      have hx' := mem_slotsInGap hx
      have hy' := mem_slotsInGap hy
      omega

/-- Witness for claim C2 at the spec's worked example: working hours 540–720,
one active appointment 600–630, duration and granularity 30. -/
theorem C2_slot_calculator_sound_witness :
    (∀ s ∈ computeAvailability [⟨540, 720⟩]
        [⟨1, 2, 600, 630, ApptStatus.Scheduled⟩] 30 30,
      s.stop = s.start + 30
      ∧ (∃ w ∈ [(⟨540, 720⟩ : TimeInterval)],
          w.start ≤ s.start ∧ s.stop ≤ w.stop)
      ∧ ∀ a ∈ [(⟨1, 2, 600, 630, ApptStatus.Scheduled⟩ : Appointment)],
          a.isActive = true →
          ¬(s.start < a.endTime ∧ a.startTime < s.stop))
    ∧ List.Pairwise (fun s1 s2 => s1.start < s2.start)
        (computeAvailability [⟨540, 720⟩]
          [⟨1, 2, 600, 630, ApptStatus.Scheduled⟩] 30 30) :=
  C2_slot_calculator_sound [⟨540, 720⟩]
    [⟨1, 2, 600, 630, ApptStatus.Scheduled⟩] 30 30
    (by decide) (by decide) (by decide) (by decide)

/-! ## Authentication module (translated from the TypeScript source)

The following definitions are translated from
`modules/auth/services/auth.service.ts`, `modules/auth/models/user.model.ts`,
`middleware/errorHandler.ts`, `utils/baseController.ts`,
`utils/apiResponse.ts` and `modules/auth/controllers/auth.controller.ts`.
`Date` values are milliseconds since the epoch (`Nat`); `Date.now()` is an
explicit `now` argument; the random values produced by `crypto.randomBytes`
are explicit oracle arguments.  The Mongoose pre-save hook bcrypt-hashes the
`password` field with a random salt before persisting; the embedding keeps the
plaintext value the service assigns, since no claim depends on the hash. -/

/-- The error type `AppError` (middleware/errorHandler.ts): message, HTTP status code and
field-level error details. -/
structure AppError where
  message : String
  statusCode : Nat
  errors : List (String × String)
deriving Repr, DecidableEq

/-- The user document (modules/auth/models/user.model.ts).  `id` stands for
the Mongo `_id`; optional fields are absent (`none`) when the document does
not carry them. -/
structure User where
  id : Nat
  firstName : String
  lastName : String
  emailAddress : String
  mobileNumber : String
  password : Option String
  refreshToken : Option String
  refreshTokenExpiresAt : Option Nat
  otp : Option String
  otpExpiresAt : Option Nat
  isVerified : Bool
  hasChangedPassword : Bool
deriving Repr, DecidableEq

/-- The query `findOne({ emailAddress })` over the user collection, modelled as the
first matching document of the store list. -/
def findOneByEmail (email : String) (store : List User) : Option User :=
  store.find? fun u => u.emailAddress = email

/-- The lookup `findById` over the user collection. -/
def findById (uid : Nat) (store : List User) : Option User :=
  store.find? fun u => u.id = uid

/-- The effect of `user.save()` on an existing document: replace the document with the
same `_id`. -/
def saveUser (u : User) (store : List User) : List User :=
  store.map fun v => if v.id = u.id then u else v

/-- JavaScript truthiness of an optional string field
(`undefined` and the empty string are falsy). -/
def optStrTruthy : Option String → Bool
  | none => false
  | some s => !(s = "")

/-- The characters of the `\s` class used by the sign-up email regular
expression and by `String.prototype.trim`. -/
def isSpaceChar (c : Char) : Bool :=
  c = ' ' || c = '\t' || c = '\n' || c = '\r' || c = '\x0b' || c = '\x0c'

/-- The function `String.prototype.trim`: strip leading and trailing whitespace. -/
def jsTrim (s : String) : String :=
  String.mk
    (((s.toList.dropWhile isSpaceChar).reverse.dropWhile isSpaceChar).reverse)

/-- ASCII lower-casing of one character. -/
def lowerChar (c : Char) : Char :=
  if 'A' ≤ c ∧ c ≤ 'Z' then Char.ofNat (c.toNat + 32) else c

/-- The function `String.prototype.toLowerCase` (the emails involved are ASCII). -/
def jsToLower (s : String) : String :=
  String.mk (s.toList.map lowerChar)

/-- The sign-up email format test `/^[^\s@]+@[^\s@]+\.[^\s@]+$/`
(auth.service.ts): exactly one `@` separating a non-empty local part from a
domain containing a `.` with at least one character on each side, and no
whitespace anywhere. -/
def emailRegexTest (email : String) : Bool :=
  let okChar (c : Char) : Bool := !(isSpaceChar c) && !(c = '@')
  match email.toList.splitOn '@' with
  | [localPart, domain] =>
      !localPart.isEmpty && localPart.all okChar &&
      !domain.isEmpty && domain.all okChar &&
      ((domain.drop 1).dropLast.contains '.')
  | _ => false

/-- The guard `user.otp && user.otpExpiresAt && user.otpExpiresAt > new Date()`
(auth.service.ts, sign-up early-return guard; a `Date` object is always
truthy). -/
def hasValidOtp (now : Nat) (u : User) : Bool :=
  optStrTruthy u.otp &&
    (match u.otpExpiresAt with
     | some t => decide (now < t)
     | none => false)

/-- The attributes of a sign-up request (auth.service.ts `SignUpData`). -/
structure SignUpAttributes where
  firstName : String
  lastName : String
  emailAddress : String
  mobileNumber : String
  countryId : String
deriving Repr, DecidableEq

/-- What `AuthService.signUp` resolves with: the (id of the) user, the OTP,
the temporary JWT (modelled by the signed `userId`), the OTP expiry time in
seconds and the resend interval. -/
structure SignUpResult where
  userId : Nat
  otp : String
  token : Nat
  expiryTime : Nat
  intervalTime : Nat
deriving Repr, DecidableEq

/-- The service method `AuthService.signUp` (auth.service.ts lines 229-359).  `freshId` is the
`_id` Mongo would assign to a newly created document.  Validation: empty and
malformed emails are rejected; an already verified email is a 409; an
unverified user with a still-valid OTP gets the stored OTP back without any
write; otherwise the user is created or updated with `otp = "123456"`
(line 314, the `generateOTP` call being commented out) and a 10-minute
expiry. -/
def AuthService.signUp (now freshId : Nat) (attrs : SignUpAttributes)
    (store : List User) : Except AppError (SignUpResult × List User) :=
  if jsTrim attrs.emailAddress = "" then
    .error ⟨"Email address is required", 400,
      [("emailAddress", "Email address is required")]⟩
  else
    if !emailRegexTest (jsToLower (jsTrim attrs.emailAddress)) then
      .error ⟨"Invalid email format", 400,
        [("emailAddress", "Please enter a valid email address")]⟩
    else
      match findOneByEmail (jsToLower (jsTrim attrs.emailAddress)) store with
      | some user =>
          if user.isVerified then
            .error ⟨"This email is already registered. Please sign in or use a different email address.",
              409,
              [("emailAddress", "This email is already registered. Please sign in or use a different email address.")]⟩
          else if hasValidOtp now user then
            .ok (⟨user.id, user.otp.getD "", user.id,
              (user.otpExpiresAt.getD 0 - now) / 1000, 30⟩, store)
          else
            let user1 := { user with
              firstName := jsTrim attrs.firstName,
              lastName := jsTrim attrs.lastName,
              mobileNumber := jsTrim attrs.mobileNumber,
              otp := some "123456",
              otpExpiresAt := some (now + 10 * 60 * 1000) }
            .ok (⟨user1.id, "123456", user1.id, 600, 30⟩, saveUser user1 store)
      | none =>
          let user1 : User :=
            { id := freshId,
              firstName := jsTrim attrs.firstName,
              lastName := jsTrim attrs.lastName,
              emailAddress := jsToLower (jsTrim attrs.emailAddress),
              mobileNumber := jsTrim attrs.mobileNumber,
              password := none,
              refreshToken := none,
              refreshTokenExpiresAt := none,
              otp := some "123456",
              otpExpiresAt := some (now + 10 * 60 * 1000),
              isVerified := false,
              hasChangedPassword := false }
          .ok (⟨freshId, "123456", freshId, 600, 30⟩, store ++ [user1])

/-- The service method `AuthService.verifyOTP` (auth.service.ts lines 372-424).  `token` is the
decoded temporary JWT: `none` models a token `jwt.verify` rejects, `some uid`
a valid token carrying `userId = uid`.  On success the temporary password is
set to `"123456"` (line 395, the `generateTempPassword` call being commented
out), the user is marked verified and the OTP fields are cleared. -/
def AuthService.verifyOTP (now : Nat) (token : Option Nat) (otp : String)
    (store : List User) : Except AppError (String × List User) :=
  match token with
  | none => .error ⟨"Invalid token", 401, []⟩
  | some uid =>
    match findById uid store with
    | none => .error ⟨"Invalid token", 401, []⟩
    | some user =>
      if !(optStrTruthy user.otp) || user.otpExpiresAt = none then
        .error ⟨"OTP has expired. Please request a new one", 400, []⟩
      else if user.otpExpiresAt.getD 0 < now then
        .error ⟨"OTP has expired. Please request a new one", 400, []⟩
      else if !(user.otp = some otp) then
        .error ⟨"Invalid OTP", 400, []⟩
      else
        let user1 := { user with
          password := some "123456",
          isVerified := true,
          otp := none,
          otpExpiresAt := none }
        .ok ("OTP verified successfully. Please check your email for temporary password.",
          saveUser user1 store)

/-- The service method `AuthService.resendOTP` (auth.service.ts lines 426-441): look the user up
by email, store the constant OTP `"123456"` (line 434) with a fresh 10-minute
expiry, and resolve with the OTP. -/
def AuthService.resendOTP (now : Nat) (email : String) (store : List User) :
    Except AppError (String × List User) :=
  match findOneByEmail email store with
  | none => .error ⟨"User not found", 404,
      [("email", "No account found with this email address")]⟩
  | some user =>
      let user1 := { user with
        otp := some "123456",
        otpExpiresAt := some (now + 10 * 60 * 1000) }
      .ok ("123456", saveUser user1 store)

/-- The environment configuration fields used by token generation
(config/env.ts): `JWT_ACCESS_EXPIRATION` and `JWT_REFRESH_EXPIRATION`, in
seconds. -/
structure EnvConfig where
  jwtAccessExpiration : Nat
  jwtRefreshExpiration : Nat
deriving Repr, DecidableEq

/-- The payload `jwt.sign` embeds in an access token (auth.service.ts
`generateTokens`): userId, email and full name. -/
structure AccessToken where
  userId : Nat
  email : String
  name : String
deriving Repr, DecidableEq

/-- The structure `TokenResponse` of auth.service.ts. -/
structure TokenResponse where
  access_token : AccessToken
  expires_in : Nat
  refresh_token : String
  refresh_expires_in : Nat
deriving Repr, DecidableEq

/-- The token generator `AuthService.generateTokens` (auth.service.ts lines 206-223).
`freshRefresh` is the hex string `randomBytes(40)` produced, passed as an
oracle argument. -/
def AuthService.generateTokens (env : EnvConfig) (freshRefresh : String)
    (user : User) : TokenResponse :=
  { access_token :=
      ⟨user.id, user.emailAddress, user.firstName ++ " " ++ user.lastName⟩,
    expires_in := env.jwtAccessExpiration,
    refresh_token := freshRefresh,
    refresh_expires_in := env.jwtRefreshExpiration }

/-- The `findOne({ refreshToken, refreshTokenExpiresAt: { $gt: new Date() } })`
query of `AuthService.refreshToken`: the first user holding the presented
refresh token with an expiry strictly in the future (a document without the
field does not match `$gt`). -/
def findOneByRefreshToken (tok : String) (now : Nat) (store : List User) :
    Option User :=
  store.find? fun u =>
    u.refreshToken = some tok &&
      (match u.refreshTokenExpiresAt with
       | some t => decide (now < t)
       | none => false)

/-- The service method `AuthService.refreshToken` (auth.service.ts lines 489-507): look the user
up by the presented refresh token, reject with a 401 if none matches, else
rotate: store the newly generated refresh token and its expiry and resolve
with the new token pair. -/
def AuthService.refreshToken (env : EnvConfig) (now : Nat)
    (freshRefresh : String) (tok : String) (store : List User) :
    Except AppError (TokenResponse × List User) :=
  match findOneByRefreshToken tok now store with
  | none => .error ⟨"Invalid or expired refresh token", 401,
      [("refresh_token", "Your session has expired. Please sign in again")]⟩
  | some user =>
      let tokens := AuthService.generateTokens env freshRefresh user
      let user1 := { user with
        refreshToken := some tokens.refresh_token,
        refreshTokenExpiresAt := some (now + tokens.refresh_expires_in * 1000) }
      .ok (tokens, saveUser user1 store)

/-! ## Controller layer and middleware stack (translated from the source) -/

/-- An HTTP reply as produced by `ApiResponseBuilder` (utils/apiResponse.ts)
and the error-handling middleware: HTTP status code, the JSON `status` field
and the message. -/
structure HttpResponse where
  httpStatus : Nat
  status : String
  message : String
deriving Repr, DecidableEq

/-- The `status` field of an error reply: `"fail"` when the status code's
decimal representation starts with the digit 4, `"error"` otherwise
(utils/apiResponse.ts, middleware/errorHandler.ts). -/
def statusLabel (code : Nat) : String :=
  if (Nat.repr code).startsWith "4" then "fail" else "error"

/-- The shared handler `BaseController.handleRequest` (utils/baseController.ts lines 24-46)
composed with the error-handling middleware: a `null`/`undefined` action
result is sent as a 404 "Resource not found" failure, any other result as a
200 success; a thrown `AppError` is forwarded to the error middleware, which
replies with the error's status code and message. -/
def handleRequest {α : Type} (result : Except AppError (Option α)) :
    HttpResponse :=
  match result with
  | .error e => ⟨e.statusCode, statusLabel e.statusCode, e.message⟩
  | .ok none => ⟨404, "fail", "Resource not found"⟩
  | .ok (some _) => ⟨200, "success", "Success"⟩

/-- The endpoint `AuthController.resendOTP` (auth.controller.ts lines 68-84) run through
`BaseController.handleRequest`: after validation the action calls
`AuthService.resendOTP`, logs the OTP and returns `null`, so `handleRequest`
chooses the reply.  `validationErrors` is the outcome of
`validationResult(req)`.  The returned store is the store after the
request. -/
def resendOTPEndpoint (now : Nat) (validationErrors : List (String × String))
    (email : String) (store : List User) : HttpResponse × List User :=
  if !validationErrors.isEmpty then
    (handleRequest (α := Unit)
      (.error ⟨"Validation failed", 400, validationErrors⟩), store)
  else
    match AuthService.resendOTP now email store with
    | .error e => (handleRequest (α := Unit) (.error e), store)
    | .ok (_otp, store1) => (handleRequest (α := Unit) (.ok none), store1)

/-- The middleware and handlers `app.ts` can mount. -/
inductive Middleware where
  | jsonSyntaxErrorHandler
  | helmetMiddleware
  | corsMiddleware
  | securityHeaders
  | forceHttps
  | preventAttacks
  | expressJson
  | expressUrlencoded
  | cookieParserMiddleware
  | morganLogger
  | defaultLimiter
  | swaggerDocs
  | healthCheck
  | authRouter
  | notFoundHandler
  | globalErrorHandler
  | errorHandler
deriving Repr, DecidableEq

/-- The middleware stack mounted on the Express app in mounting order
(app.ts lines 35-157).  The rate limiter is defined
(security.middleware.ts `defaultLimiter`) but its mounting line
`app.use` of `defaultLimiter` (app.ts line 78) is commented out, so it is not
part of the stack. -/
def appMiddlewareStack : List Middleware :=
  [ .jsonSyntaxErrorHandler, .helmetMiddleware, .corsMiddleware,
    .securityHeaders, .forceHttps, .preventAttacks, .expressJson,
    .expressUrlencoded, .cookieParserMiddleware, .morganLogger,
    .swaggerDocs, .healthCheck, .authRouter, .notFoundHandler,
    .globalErrorHandler, .errorHandler ]

/-! ### Claims about the auth module and middleware stack -/

/-- Claim C7, counterexample: the claim "every API request is processed through a
middleware stack that includes CORS, helmet, rate limiting, logging, and
error handling" is false for the app as mounted: the rate limiter is not in
the stack (its `app.use` of `defaultLimiter` line is commented out). -/
theorem C7_counterexample_no_rate_limiting :
    ¬(Middleware.corsMiddleware ∈ appMiddlewareStack ∧
      Middleware.helmetMiddleware ∈ appMiddlewareStack ∧
      Middleware.defaultLimiter ∈ appMiddlewareStack ∧
      Middleware.morganLogger ∈ appMiddlewareStack ∧
      Middleware.globalErrorHandler ∈ appMiddlewareStack ∧
      Middleware.errorHandler ∈ appMiddlewareStack) := by
  decide

/-- Claim C7, amended: every API request is processed through a middleware stack
that includes CORS, helmet, logging and error handling; the rate limiter is
defined but not mounted, so rate limiting is not part of the stack. -/
theorem C7_middleware_stack :
    Middleware.corsMiddleware ∈ appMiddlewareStack ∧
    Middleware.helmetMiddleware ∈ appMiddlewareStack ∧
    Middleware.morganLogger ∈ appMiddlewareStack ∧
    Middleware.globalErrorHandler ∈ appMiddlewareStack ∧
    Middleware.errorHandler ∈ appMiddlewareStack ∧
    Middleware.defaultLimiter ∉ appMiddlewareStack := by
  decide

/-- Claim C8: for every resend-OTP request whose service call succeeds (the user
exists, so a new OTP is saved), the HTTP response is a 404 failure with
message "Resource not found", because the controller action returns `null`
and `handleRequest` maps a `null` result to a 404 reply.  The store is still
updated with the new OTP. -/
theorem C8_resend_otp_success_is_404 (now : Nat) (email : String)
    (store : List User) (u : User)
    (hfind : findOneByEmail email store = some u) :
    resendOTPEndpoint now [] email store =
      (⟨404, "fail", "Resource not found"⟩,
       saveUser { u with otp := some "123456",
                          otpExpiresAt := some (now + 10 * 60 * 1000) }
         store) := by
  rw [resendOTPEndpoint]
  rw [AuthService.resendOTP, hfind]
  rfl

/-- Witness for claim C8: a concrete store holding the requested user. -/
theorem C8_resend_otp_success_is_404_witness :
    resendOTPEndpoint 0 [] "a@b.c"
        [⟨1, "A", "B", "a@b.c", "017", none, none, none, none, none, false,
          false⟩] =
      (⟨404, "fail", "Resource not found"⟩,
       saveUser ⟨1, "A", "B", "a@b.c", "017", none, none, none,
         some "123456", some 600000, false, false⟩
         [⟨1, "A", "B", "a@b.c", "017", none, none, none, none, none, false,
           false⟩]) :=
  C8_resend_otp_success_is_404 0 "a@b.c"
    [⟨1, "A", "B", "a@b.c", "017", none, none, none, none, none, false,
      false⟩]
    ⟨1, "A", "B", "a@b.c", "017", none, none, none, none, none, false,
      false⟩
    (by decide)

/-- Claim C6: across sign-up, OTP resend and OTP verification, every OTP the
service stores and the temporary password set on verification are the
hardcoded constant `"123456"` (the random generators are commented out in the
source).  For sign-up, the hypothesis excludes the early-return path, which
stores nothing and echoes the previously stored OTP. -/
theorem C6_hardcoded_otp_and_temp_password :
    (∀ (now freshId : Nat) (attrs : SignUpAttributes) (store : List User)
        (r : SignUpResult) (store' : List User),
      (∀ u ∈ store, hasValidOtp now u = false) →
      AuthService.signUp now freshId attrs store = .ok (r, store') →
      r.otp = "123456" ∧ ∃ u ∈ store', u.otp = some "123456")
    ∧ (∀ (now : Nat) (email : String) (store : List User) (otp : String)
        (store' : List User),
      AuthService.resendOTP now email store = .ok (otp, store') →
      otp = "123456" ∧ ∃ u ∈ store', u.otp = some "123456")
    ∧ (∀ (now : Nat) (token : Option Nat) (otp : String) (store : List User)
        (m : String) (store' : List User),
      AuthService.verifyOTP now token otp store = .ok (m, store') →
      ∃ u ∈ store', u.password = some "123456") := by
  refine ⟨?_, ?_, ?_⟩
  · intro now freshId attrs store r store' hvalid h
    unfold AuthService.signUp at h
    split at h
    · simp at h
    · split at h
      · simp at h
      · split at h
        next user hfind =>
          split at h
          · simp at h
          · split at h
            next hotp =>
              rw [hvalid user (List.mem_of_find?_eq_some hfind)] at hotp
              simp at hotp
            next hotp =>
              simp only [Except.ok.injEq, Prod.mk.injEq] at h
              obtain ⟨hr, hs⟩ := h
              subst hr
              subst hs
              refine ⟨rfl, ?_⟩
              refine ⟨_, List.mem_map.mpr
                ⟨user, List.mem_of_find?_eq_some hfind, rfl⟩, ?_⟩
              simp
        next hfind =>
          simp only [Except.ok.injEq, Prod.mk.injEq] at h
          obtain ⟨hr, hs⟩ := h
          subst hr
          subst hs
          exact ⟨rfl,
            ⟨_, List.mem_append_right _ (List.mem_singleton.mpr rfl), rfl⟩⟩
  · intro now email store otp store' h
    unfold AuthService.resendOTP at h
    split at h
    next hfind => simp at h
    next user hfind =>
      simp only [Except.ok.injEq, Prod.mk.injEq] at h
      obtain ⟨rfl, rfl⟩ := h
      refine ⟨rfl, ?_⟩
      refine ⟨_, List.mem_map.mpr
        ⟨user, List.mem_of_find?_eq_some hfind, rfl⟩, ?_⟩
      simp
  · intro now token otp store m store' h
    cases token with
    | none => simp [AuthService.verifyOTP] at h
    | some uid =>
      simp only [AuthService.verifyOTP] at h
      split at h
      next hfind => simp at h
      next user hfind =>
        split_ifs at h with h1 h2 h3
        simp only [Except.ok.injEq, Prod.mk.injEq] at h
        obtain ⟨-, rfl⟩ := h
        refine ⟨_, List.mem_map.mpr
          ⟨user, List.mem_of_find?_eq_some hfind, rfl⟩, ?_⟩
        simp

/-- Witness for claim C6 at a fresh sign-up: empty store, a valid email. -/
theorem C6_hardcoded_otp_and_temp_password_witness :
    (⟨1, "123456", 1, 600, 30⟩ : SignUpResult).otp = "123456" ∧
    ∃ u ∈ [(⟨1, "A", "B", "a@b.c", "017", none, none, none, some "123456",
        some 600000, false, false⟩ : User)], u.otp = some "123456" :=
  C6_hardcoded_otp_and_temp_password.1 0 1 ⟨"A", "B", "a@b.c", "017", "880"⟩
    [] ⟨1, "123456", 1, 600, 30⟩
    [⟨1, "A", "B", "a@b.c", "017", none, none, none, some "123456",
      some 600000, false, false⟩]
    (by simp) (by rfl)

/-- Saving a document with the id that `findById` resolves makes `findById`
return the saved document. -/
theorem findById_saveUser (uid : Nat) (u' : User) (hid : u'.id = uid) :
    ∀ (store : List User), (findById uid store).isSome = true →
      findById uid (saveUser u' store) = some u'
  | [], h => by simp [findById, List.find?] at h
  | v :: rest, h => by
      by_cases hv : v.id = uid
      · have hv' : v.id = u'.id := by rw [hid]; exact hv
        simp [findById, saveUser, List.find?, hv', hid]
      · have hv' : ¬v.id = u'.id := by rw [hid]; exact hv
        have h' : (findById uid rest).isSome = true := by
          simpa [findById, List.find?, hv] using h
        have ih := findById_saveUser uid u' hid rest h'
        simp only [findById, saveUser, List.map, List.find?, if_neg hv',
          decide_eq_true_eq] at ih ⊢
        simp only [hv, decide_False]
        exact ih

/-- Claim C9: OTP verification is one-shot: a successful `verifyOTP` clears the
stored `otp` and `otpExpiresAt` and sets `isVerified`, so a second `verifyOTP`
with the same token and the same OTP fails with "OTP has expired. Please
request a new one". -/
theorem C9_verify_otp_one_shot (now now2 uid : Nat) (otp : String)
    (store : List User) (m : String) (store' : List User)
    (h : AuthService.verifyOTP now (some uid) otp store = .ok (m, store')) :
    ∃ u', findById uid store' = some u' ∧ u'.otp = none ∧
      u'.otpExpiresAt = none ∧ u'.isVerified = true ∧
      AuthService.verifyOTP now2 (some uid) otp store' =
        .error ⟨"OTP has expired. Please request a new one", 400, []⟩ := by
  simp only [AuthService.verifyOTP] at h
  split at h
  next hfind => simp at h
  next user hfind =>
    split_ifs at h with h1 h2 h3
    simp only [Except.ok.injEq, Prod.mk.injEq] at h
    obtain ⟨-, rfl⟩ := h
    have hid : user.id = uid := by
      have := List.find?_some hfind
      simpa using this
    have hsome : (findById uid store).isSome = true := by
      rw [findById] at hfind ⊢
      rw [hfind]
      rfl
    have hfind' := findById_saveUser uid
      { user with password := some "123456", isVerified := true,
                  otp := none, otpExpiresAt := none }
      hid store hsome
    refine ⟨_, hfind', rfl, rfl, rfl, ?_⟩
    simp only [AuthService.verifyOTP]
    rw [hfind']
    simp [optStrTruthy]

/-- Witness for claim C9: a concrete verified run on a one-user store. -/
theorem C9_verify_otp_one_shot_witness :
    ∃ u', findById 1
        [⟨1, "A", "B", "a@b.c", "017", some "123456", none, none, none, none,
          true, false⟩] = some u' ∧
      u'.otp = none ∧ u'.otpExpiresAt = none ∧ u'.isVerified = true ∧
      AuthService.verifyOTP 0 (some 1) "123456"
          [⟨1, "A", "B", "a@b.c", "017", some "123456", none, none, none,
            none, true, false⟩] =
        .error ⟨"OTP has expired. Please request a new one", 400, []⟩ :=
  C9_verify_otp_one_shot 0 0 1 "123456"
    [⟨1, "A", "B", "a@b.c", "017", none, none, none, some "123456",
      some 1000, false, false⟩]
    "OTP verified successfully. Please check your email for temporary password."
    [⟨1, "A", "B", "a@b.c", "017", some "123456", none, none, none, none,
      true, false⟩]
    (by rfl)

/-- Claim C10: refresh tokens are single-use: a successful `refreshToken` call
replaces the user's stored refresh token with the newly generated one, so —
as long as the fresh random token differs from the presented one and no other
user holds the presented token — a second call presenting the same token
fails with the 401 "Invalid or expired refresh token" error. -/
theorem C10_refresh_token_single_use (env : EnvConfig) (now now2 : Nat)
    (fresh fresh2 tok : String) (store : List User) (u0 : User)
    (hfind : findOneByRefreshToken tok now store = some u0)
    (hfresh : fresh ≠ tok)
    (huniq : ∀ u ∈ store, u.refreshToken = some tok → u.id = u0.id) :
    ∃ tokens store',
      AuthService.refreshToken env now fresh tok store = .ok (tokens, store')
      ∧ tokens.refresh_token = fresh
      ∧ AuthService.refreshToken env now2 fresh2 tok store' =
          .error ⟨"Invalid or expired refresh token", 401,
            [("refresh_token", "Your session has expired. Please sign in again")]⟩ := by
  have hrun : AuthService.refreshToken env now fresh tok store =
      .ok (AuthService.generateTokens env fresh u0,
        saveUser { u0 with refreshToken := some fresh,
                           refreshTokenExpiresAt :=
                             some (now + env.jwtRefreshExpiration * 1000) }
          store) := by
    rw [AuthService.refreshToken, hfind]
    rfl
  refine ⟨_, _, hrun, rfl, ?_⟩
  rw [AuthService.refreshToken]
  have hnone : findOneByRefreshToken tok now2
      (saveUser { u0 with refreshToken := some fresh,
                          refreshTokenExpiresAt :=
                            some (now + env.jwtRefreshExpiration * 1000) }
        store) = none := by
    rw [findOneByRefreshToken, List.find?_eq_none]
    intro x hx
    simp only [saveUser, List.mem_map] at hx
    obtain ⟨v, hv, rfl⟩ := hx
    by_cases hvid : v.id = u0.id
    · simp [hvid, hfresh]
    · simp only [if_neg hvid, Bool.and_eq_true, decide_eq_true_eq, not_and]
      intro hvtok
      exact absurd (huniq v hv hvtok) hvid
  rw [hnone]

/-- Witness for claim C10: a concrete rotation on a one-user store. -/
theorem C10_refresh_token_single_use_witness :
    ∃ tokens store',
      AuthService.refreshToken ⟨900, 2592000⟩ 0 "new" "old"
          [⟨1, "A", "B", "a@b.c", "017", none, some "old", some 1000, none,
            none, true, true⟩] = .ok (tokens, store')
      ∧ tokens.refresh_token = "new"
      ∧ AuthService.refreshToken ⟨900, 2592000⟩ 0 "x" "old" store' =
          .error ⟨"Invalid or expired refresh token", 401,
            [("refresh_token", "Your session has expired. Please sign in again")]⟩ :=
  C10_refresh_token_single_use ⟨900, 2592000⟩ 0 0 "new" "x" "old"
    [⟨1, "A", "B", "a@b.c", "017", none, some "old", some 1000, none, none,
      true, true⟩]
    ⟨1, "A", "B", "a@b.c", "017", none, some "old", some 1000, none, none,
      true, true⟩
    (by rfl) (by decide) (by decide)

/-- Witness for claim C1: the two worked examples of the overlap rule,
read off the claim theorem. -/
theorem C1_conflict_half_open_rule_witness :
    intervalsConflict 615 645 600 630 = true ∧
    intervalsConflict 630 660 600 630 = false :=
  ⟨C1_conflict_half_open_rule.2.2.1, C1_conflict_half_open_rule.2.2.2⟩

/-- Witness for claim C4: the first returned slot, 09:00–09:30, does not
start at 10:00. -/
theorem C4_example_slots_witness :
    (⟨540, 570⟩ : TimeInterval).start ≠ 600 :=
  C4_example_slots.2 ⟨540, 570⟩ (by decide)
